import Mathlib

/-!
Shallow embedding of `blockchain/genesis/genesis.go` (package `genesis`) of
iotex-core, together with theorems checking the natural-language specification
of the genesis parameter registry against the code.

Modelling conventions:
* Go `uint64` values are modelled as `Nat`; where a claim depends on the
  64-bit bound it appears as an explicit hypothesis `h < 2 ^ 64`.
* Go `int64` and `time.Duration` (a nanosecond count) are modelled as `Int`.
* Go `map[string]string` is modelled as an association list
  `List (String × String)`; a Go map always has distinct keys, which appears
  as a `Nodup` hypothesis where a proof needs it.
* A Go panic is modelled by `Option.none` / an explicit error value.
-/

namespace IotexGenesis

/-- Blockchain contains blockchain level configs (struct `Blockchain`). -/
structure Blockchain where
  Timestamp : Int
  BlockGasLimit : Nat
  TsunamiBlockGasLimit : Nat
  WakeBlockGasLimit : Nat
  ActionGasLimit : Nat
  BlockInterval : Int
  NumSubEpochs : Nat
  DardanellesNumSubEpochs : Nat
  WakeNumSubEpochs : Nat
  NumDelegates : Nat
  NumCandidateDelegates : Nat
  TimeBasedRotation : Bool
  MinBlocksForBlobRetention : Nat
  PacificBlockHeight : Nat
  AleutianBlockHeight : Nat
  BeringBlockHeight : Nat
  CookBlockHeight : Nat
  DardanellesBlockHeight : Nat
  DaytonaBlockHeight : Nat
  EasterBlockHeight : Nat
  FbkMigrationBlockHeight : Nat
  FairbankBlockHeight : Nat
  GreenlandBlockHeight : Nat
  HawaiiBlockHeight : Nat
  IcelandBlockHeight : Nat
  JutlandBlockHeight : Nat
  KamchatkaBlockHeight : Nat
  LordHoweBlockHeight : Nat
  MidwayBlockHeight : Nat
  NewfoundlandBlockHeight : Nat
  OkhotskBlockHeight : Nat
  PalauBlockHeight : Nat
  QuebecBlockHeight : Nat
  RedseaBlockHeight : Nat
  SumatraBlockHeight : Nat
  TsunamiBlockHeight : Nat
  UpernavikBlockHeight : Nat
  VanuatuBlockHeight : Nat
  WakeBlockHeight : Nat
  ToBeEnabledBlockHeight : Nat
deriving Repr, DecidableEq

/-- Account contains the configs for account protocol (struct `Account`). -/
structure Account where
  InitBalanceMap : List (String × String)
  ReplayDeployerWhitelist : List String
deriving Repr, DecidableEq

/-- Delegate defines a delegate with address and votes (struct `Delegate`). -/
structure Delegate where
  OperatorAddrStr : String
  RewardAddrStr : String
  VotesStr : String
deriving Repr, DecidableEq

/-- Poll contains the configs for poll protocol (struct `Poll`). -/
structure Poll where
  PollMode : String
  EnableGravityChainVoting : Bool
  GravityChainStartHeight : Nat
  GravityChainCeilingHeight : Nat
  GravityChainHeightInterval : Nat
  RegisterContractAddress : String
  StakingContractAddress : String
  NativeStakingContractAddress : String
  NativeStakingContractCode : String
  ConsortiumCommitteeContractCode : String
  VoteThreshold : String
  ScoreThreshold : String
  SelfStakingThreshold : String
  Delegates : List Delegate
  ProbationEpochPeriod : Nat
  ProbationIntensityRate : Nat
  UnproductiveDelegateMaxCacheSize : Nat
  SystemStakingContractAddress : String
  SystemStakingContractHeight : Nat
  SystemSGDContractAddress : String
  SystemSGDContractHeight : Nat
  SystemStakingContractV2Address : String
  SystemStakingContractV2Height : Nat
  SystemStakingContractV3Address : String
  SystemStakingContractV3Height : Nat
deriving Repr, DecidableEq

/-- Rewarding contains the configs for rewarding protocol (struct `Rewarding`). -/
structure Rewarding where
  InitBalanceStr : String
  BlockRewardStr : String
  DardanellesBlockRewardStr : String
  EpochRewardStr : String
  AleutianEpochRewardStr : String
  NumDelegatesForEpochReward : Nat
  ExemptAddrStrsFromEpochReward : List String
  FoundationBonusStr : String
  NumDelegatesForFoundationBonus : Nat
  FoundationBonusLastEpoch : Nat
  FoundationBonusP2StartEpoch : Nat
  FoundationBonusP2EndEpoch : Nat
  ProductivityThreshold : Nat
  WakeBlockRewardStr : String
deriving Repr, DecidableEq

/-- VoteWeightCalConsts contains the configs for calculating vote weight. -/
structure VoteWeightCalConsts where
  DurationLg : Float
  AutoStake : Float
  SelfStake : Float

/-- RegistrationConsts contains the configs for candidate registration. -/
structure RegistrationConsts where
  Fee : String
  MinSelfStake : String

/-- BootstrapCandidate is the candidate data provided to bootstrap a candidate. -/
structure BootstrapCandidate where
  OwnerAddress : String
  OperatorAddress : String
  RewardAddress : String
  Name : String
  SelfStakingTokens : String

/-- Staking contains the configs for staking protocol (struct `Staking`). -/
structure Staking where
  VoteWeightCalConsts : VoteWeightCalConsts
  RegistrationConsts : RegistrationConsts
  WithdrawWaitingPeriod : Int
  MinStakeAmount : String
  BootstrapCandidates : List BootstrapCandidate
  EndorsementWithdrawWaitingBlocks : Nat

/-- Genesis is the root level of genesis config (struct `Genesis`); the Go
struct embeds the five sub-structs, modelled here as named fields. -/
structure Genesis where
  blockchain : Blockchain
  account : Account
  poll : Poll
  rewarding : Rewarding
  staking : Staking

/-- Go function `defaultConfig`; the constants produced by calls to
`unit.ConvertIotxToRau(n)` (an external package multiplying by `10^18`) are
inlined as their resulting decimal strings, `time.Duration` values as their
nanosecond counts, and `math.MaxUint64` as `2^64 - 1`. -/
def defaultConfig : Genesis :=
  { blockchain :=
    { Timestamp := 1553558500
      BlockGasLimit := 20000000
      TsunamiBlockGasLimit := 50000000
      WakeBlockGasLimit := 25000000
      ActionGasLimit := 5000000
      BlockInterval := 10000000000
      NumSubEpochs := 15
      DardanellesNumSubEpochs := 30
      WakeNumSubEpochs := 60
      NumDelegates := 24
      NumCandidateDelegates := 36
      TimeBasedRotation := true
      MinBlocksForBlobRetention := 345600
      PacificBlockHeight := 432001
      AleutianBlockHeight := 864001
      BeringBlockHeight := 1512001
      CookBlockHeight := 1641601
      DardanellesBlockHeight := 1816201
      DaytonaBlockHeight := 3238921
      EasterBlockHeight := 4478761
      FbkMigrationBlockHeight := 5157001
      FairbankBlockHeight := 5165641
      GreenlandBlockHeight := 6544441
      HawaiiBlockHeight := 11267641
      IcelandBlockHeight := 12289321
      JutlandBlockHeight := 13685401
      KamchatkaBlockHeight := 13816441
      LordHoweBlockHeight := 13979161
      MidwayBlockHeight := 16509241
      NewfoundlandBlockHeight := 17662681
      OkhotskBlockHeight := 21542761
      PalauBlockHeight := 22991401
      QuebecBlockHeight := 24838201
      RedseaBlockHeight := 26704441
      SumatraBlockHeight := 28516681
      TsunamiBlockHeight := 29275561
      UpernavikBlockHeight := 31174201
      VanuatuBlockHeight := 33730921
      WakeBlockHeight := 36893881
      ToBeEnabledBlockHeight := 18446744073709551615 }
    account :=
    { InitBalanceMap := []
      ReplayDeployerWhitelist := ["0x3fab184622dc19b6109349b94811493bf2a45362"] }
    poll :=
    { PollMode := "nativeMix"
      EnableGravityChainVoting := true
      GravityChainStartHeight := 7614500
      GravityChainCeilingHeight := 10199000
      GravityChainHeightInterval := 100
      RegisterContractAddress := "0x95724986563028deb58f15c5fac19fa09304f32d"
      StakingContractAddress := "0x87c9dbff0016af23f5b1ab9b8e072124ab729193"
      NativeStakingContractAddress := "io1xpq62aw85uqzrccg9y5hnryv8ld2nkpycc3gza"
      NativeStakingContractCode := ""
      ConsortiumCommitteeContractCode := ""
      VoteThreshold := "100000000000000000000"
      ScoreThreshold := "2000000000000000000000000"
      SelfStakingThreshold := "1200000000000000000000000"
      Delegates := []
      ProbationEpochPeriod := 6
      ProbationIntensityRate := 90
      UnproductiveDelegateMaxCacheSize := 20
      SystemStakingContractAddress := "io1drde9f483guaetl3w3w6n6y7yv80f8fael7qme"
      SystemStakingContractHeight := 24486464
      SystemSGDContractAddress := ""
      SystemSGDContractHeight := 0
      SystemStakingContractV2Address := "io13mjjr5shj4mte39axwsqjp8fdggk0qzjhatprp"
      SystemStakingContractV2Height := 30934838
      SystemStakingContractV3Address := "io1vkcvq4ywarvfj4u9zwlqedfsttalq55jmtmqcu"
      SystemStakingContractV3Height := 36726575 }
    rewarding :=
    { InitBalanceStr := "200000000000000000000000000"
      BlockRewardStr := "16000000000000000000"
      DardanellesBlockRewardStr := "8000000000000000000"
      EpochRewardStr := "12500000000000000000000"
      AleutianEpochRewardStr := "18750000000000000000000"
      NumDelegatesForEpochReward := 100
      ExemptAddrStrsFromEpochReward :=
        [ "io15fqav3tugm96ge7anckx0k4gukz5m4mqf0jpv3"
        , "io1x9kjkr0qv2fa7j4t2as8lrj223xxsqt4tl7xp7"
        , "io1ar5l5s268rtgzshltnqv88mua06ucm58dx678y"
        , "io1xsx5n94kg2zv64r7tm8vyz9mh86amfak9ka9xx"
        , "io1vtm2zgn830pn6auc2cvnchgwdaefa9gr4z0s86"
        , "io159fv8mu9d5djk8u2t0flgw4yqmt6fg98uqjka8"
        , "io1c3r4th3zrk4uhv83a9gr4gvn3y6pzaj6mc84ea"
        , "io14vmhs9c75r2ptxdaqrtk0dz7skct30pxmt69d9"
        , "io1gf08snppu2a2wfd50pjas2j6q2kcxjzqph3pep"
        , "io1u5ff879gg2dw9vfpxr2tsmuaz07e2rea6gvl7s"
        , "io1du4eq4f88n4wyc026l3gamjwetlgsg4jz7j884"
        , "io12yxdwewry70gr9fs6fphyfaky9c7gurmzk8f4f"
        , "io1lx53nfgq2dnzrz5ecz2ecs7vvl6qll0mkn970w"
        , "io1u5xy0ecnrjrdkzyctfqh37lgr5pcfzphgqrdwt"
        , "io1aj8arp07xw6s9rgh42af5xf98csyuehnnwlk52"
        , "io18gdmv5g0xhkuj2cdyvp8076uwhl7h3gesmzh8u"
        , "io1td5fvamm3qf22r5h93gay6ggqdh9z0edeqx63u"
        , "io1qs785af9k9xf3xgd6vut7um9zcthtrvsn2xap2"
        , "io127ftn4ry6wgxdrw4hcd6gdwqlq70ujk98dvtw5"
        , "io1wv5m0xyermvr2n0wjx2cjsqwyk863drdl5qfyn"
        , "io1v0q5g2f8z6l3v25krl677chdx7g5pwt9kvqfpc"
        , "io1xsdegzr2hdj5sv5ad4nr0yfgpsd98e40u6svem"
        , "io1fks575kklxafq4fwjccmz5d3pmq5ynxk5h6h0v"
        , "io15npzu93ug8r3zdeysppnyrcdu2xssz0lcam9l9"
        , "io1gh7xfrsnj6p5uqgjpk9xq6jg9na28aewgp7a9v"
        , "io1nyjs526mnqcsx4twa7nptkg08eclsw5c2dywp4"
        , "io1jafqlvntcxgyp6e0uxctt3tljzc3vyv5hg4ukh"
        , "io1z7mjef7w528nasnsafan0rp6yuvkvq405l6r8j"
        , "io1cup9k8hl8fp40vrj29ex8djc346780dk223end"
        , "io1scs89jur7qklzh5vfrmha3c40u8yajjx6kvzg9"
        , "io10kyvvzu08pjeylymq4umknjal25ea3ptfknrpf"
        , "io18mvepyxkcd5jkyplfqn27ydkpsendrey3xe2l8"
        , "io1nz40npqa3yvek4zdasmqaetl2j4h6urejfkera"
        , "io1m7p9yrejngxyvxhvn7p9g9uwlvd7uuamg8wcjd"
        , "io1cwwm08dwv9phh3wt5vsdhu9gcypw9q2sc7pl9s"
        , "io14aj46jjmtt83vts9syhrs9st80czumg40cjasl" ]
      FoundationBonusStr := "80000000000000000000"
      NumDelegatesForFoundationBonus := 36
      FoundationBonusLastEpoch := 8760
      FoundationBonusP2StartEpoch := 9698
      FoundationBonusP2EndEpoch := 18458
      ProductivityThreshold := 85
      WakeBlockRewardStr := "4000000000000000000" }
    staking :=
    { VoteWeightCalConsts :=
      { DurationLg := 1.2
        AutoStake := 1
        SelfStake := 1.06 }
      RegistrationConsts :=
      { Fee := "100000000000000000000"
        MinSelfStake := "1200000000000000000000000" }
      WithdrawWaitingPeriod := 259200000000000
      MinStakeAmount := "100000000000000000000"
      BootstrapCandidates := []
      EndorsementWithdrawWaitingBlocks := 17280 } }

/-- Package variable `Default = defaultConfig()`. -/
def Default : Genesis := defaultConfig

/-- Go method `(g *Blockchain) isPost(targetHeight, height uint64) bool`. -/
def Blockchain.isPost (_ : Blockchain) (targetHeight height : Nat) : Bool :=
  decide (height ≥ targetHeight)

/-- Go method `IsPacific`. -/
def Blockchain.IsPacific (g : Blockchain) (height : Nat) : Bool :=
  g.isPost g.PacificBlockHeight height

/-- Go method `IsAleutian`. -/
def Blockchain.IsAleutian (g : Blockchain) (height : Nat) : Bool :=
  g.isPost g.AleutianBlockHeight height

/-- Go method `IsBering`. -/
def Blockchain.IsBering (g : Blockchain) (height : Nat) : Bool :=
  g.isPost g.BeringBlockHeight height

/-- Go method `IsCook`. -/
def Blockchain.IsCook (g : Blockchain) (height : Nat) : Bool :=
  g.isPost g.CookBlockHeight height

/-- Go method `IsDardanelles`. -/
def Blockchain.IsDardanelles (g : Blockchain) (height : Nat) : Bool :=
  g.isPost g.DardanellesBlockHeight height

/-- Go method `IsDaytona`. -/
def Blockchain.IsDaytona (g : Blockchain) (height : Nat) : Bool :=
  g.isPost g.DaytonaBlockHeight height

/-- Go method `IsEaster`. -/
def Blockchain.IsEaster (g : Blockchain) (height : Nat) : Bool :=
  g.isPost g.EasterBlockHeight height

/-- Go method `IsFairbank`. -/
def Blockchain.IsFairbank (g : Blockchain) (height : Nat) : Bool :=
  g.isPost g.FairbankBlockHeight height

/-- Go method `IsFbkMigration`. -/
def Blockchain.IsFbkMigration (g : Blockchain) (height : Nat) : Bool :=
  g.isPost g.FbkMigrationBlockHeight height

/-- Go method `IsGreenland`. -/
def Blockchain.IsGreenland (g : Blockchain) (height : Nat) : Bool :=
  g.isPost g.GreenlandBlockHeight height

/-- Go method `IsHawaii`. -/
def Blockchain.IsHawaii (g : Blockchain) (height : Nat) : Bool :=
  g.isPost g.HawaiiBlockHeight height

/-- Go method `IsIceland`. -/
def Blockchain.IsIceland (g : Blockchain) (height : Nat) : Bool :=
  g.isPost g.IcelandBlockHeight height

/-- Go method `IsJutland`. -/
def Blockchain.IsJutland (g : Blockchain) (height : Nat) : Bool :=
  g.isPost g.JutlandBlockHeight height

/-- Go method `IsKamchatka`. -/
def Blockchain.IsKamchatka (g : Blockchain) (height : Nat) : Bool :=
  g.isPost g.KamchatkaBlockHeight height

/-- Go method `IsLordHowe`. -/
def Blockchain.IsLordHowe (g : Blockchain) (height : Nat) : Bool :=
  g.isPost g.LordHoweBlockHeight height

/-- Go method `IsMidway`. -/
def Blockchain.IsMidway (g : Blockchain) (height : Nat) : Bool :=
  g.isPost g.MidwayBlockHeight height

/-- Go method `IsNewfoundland`. -/
def Blockchain.IsNewfoundland (g : Blockchain) (height : Nat) : Bool :=
  g.isPost g.NewfoundlandBlockHeight height

/-- Go method `IsOkhotsk`. -/
def Blockchain.IsOkhotsk (g : Blockchain) (height : Nat) : Bool :=
  g.isPost g.OkhotskBlockHeight height

/-- Go method `IsPalau`. -/
def Blockchain.IsPalau (g : Blockchain) (height : Nat) : Bool :=
  g.isPost g.PalauBlockHeight height

/-- Go method `IsQuebec`. -/
def Blockchain.IsQuebec (g : Blockchain) (height : Nat) : Bool :=
  g.isPost g.QuebecBlockHeight height

/-- Go method `IsRedsea`. -/
def Blockchain.IsRedsea (g : Blockchain) (height : Nat) : Bool :=
  g.isPost g.RedseaBlockHeight height

/-- Go method `IsSumatra`. -/
def Blockchain.IsSumatra (g : Blockchain) (height : Nat) : Bool :=
  g.isPost g.SumatraBlockHeight height

/-- Go method `IsTsunami`. -/
def Blockchain.IsTsunami (g : Blockchain) (height : Nat) : Bool :=
  g.isPost g.TsunamiBlockHeight height

/-- Go method `IsUpernavik`. -/
def Blockchain.IsUpernavik (g : Blockchain) (height : Nat) : Bool :=
  g.isPost g.UpernavikBlockHeight height

/-- Go method `IsVanuatu`. -/
def Blockchain.IsVanuatu (g : Blockchain) (height : Nat) : Bool :=
  g.isPost g.VanuatuBlockHeight height

/-- Go method `IsWake`. -/
def Blockchain.IsWake (g : Blockchain) (height : Nat) : Bool :=
  g.isPost g.WakeBlockHeight height

/-- Go method `IsToBeEnabled`. -/
def Blockchain.IsToBeEnabled (g : Blockchain) (height : Nat) : Bool :=
  g.isPost g.ToBeEnabledBlockHeight height

/-- Go method `BlockGasLimitByHeight`. -/
def Blockchain.BlockGasLimitByHeight (g : Blockchain) (height : Nat) : Nat :=
  if g.isPost g.WakeBlockHeight height then g.WakeBlockGasLimit
  else if g.isPost g.TsunamiBlockHeight height then g.TsunamiBlockGasLimit
  else g.BlockGasLimit

/-- Go map indexing `m[k]` on `map[string]string`, as lookup in the
association-list model (`none` models an absent key). -/
def mapLookup (k : String) : List (String × String) → Option String
  | [] => none
  | p :: rest => if p.1 = k then some p.2 else mapLookup k rest

/-- Go `sort.Strings`: sort a string slice in ascending lexicographic order. -/
def sortStrings (l : List String) : List String :=
  List.insertionSort (· ≤ ·) l

/-- The committed subset of `Blockchain`, mirroring the fields `Genesis.Hash`
copies into `iotextypes.GenesisBlockchain`. -/
structure GenesisBlockchainProto where
  Timestamp : Int
  BlockGasLimit : Nat
  ActionGasLimit : Nat
  BlockInterval : Int
  NumSubEpochs : Nat
  NumDelegates : Nat
  NumCandidateDelegates : Nat
  TimeBasedRotation : Bool
deriving Repr, DecidableEq

/-- Mirror of `iotextypes.GenesisAccount` as built by `Genesis.Hash`. -/
structure GenesisAccountProto where
  InitBalanceAddrs : List String
  InitBalances : List String
deriving Repr, DecidableEq

/-- Mirror of `iotextypes.GenesisDelegate` as built by `Genesis.Hash`. -/
structure GenesisDelegateProto where
  OperatorAddr : String
  RewardAddr : String
  Votes : String
deriving Repr, DecidableEq

/-- Mirror of `iotextypes.GenesisPoll` as built by `Genesis.Hash`. -/
structure GenesisPollProto where
  EnableGravityChainVoting : Bool
  GravityChainStartHeight : Nat
  RegisterContractAddress : String
  StakingContractAddress : String
  VoteThreshold : String
  ScoreThreshold : String
  SelfStakingThreshold : String
  Delegates : List GenesisDelegateProto
deriving Repr, DecidableEq

/-- Mirror of `iotextypes.GenesisRewarding` as built by `Genesis.Hash`. -/
structure GenesisRewardingProto where
  InitBalance : String
  BlockReward : String
  EpochReward : String
  NumDelegatesForEpochReward : Nat
  FoundationBonus : String
  NumDelegatesForFoundationBonus : Nat
  FoundationBonusLastEpoch : Nat
  ProductivityThreshold : Nat
deriving Repr, DecidableEq

/-- Mirror of `iotextypes.Genesis` as built by `Genesis.Hash`. -/
structure GenesisProto where
  blockchain : GenesisBlockchainProto
  account : GenesisAccountProto
  poll : GenesisPollProto
  rewarding : GenesisRewardingProto
deriving Repr, DecidableEq

/-- The conversion of a configured `Delegate` into the committed
`iotextypes.GenesisDelegate`, as in the loop of `Genesis.Hash`. -/
def delegateProto (d : Delegate) : GenesisDelegateProto :=
  { OperatorAddr := d.OperatorAddrStr
    RewardAddr := d.RewardAddrStr
    Votes := d.VotesStr }

/-- Go method `(g *Genesis) Hash()`: builds the canonical committed record
(the initial-balance table as two index-aligned sequences with addresses
sorted by `sort.Strings`, the delegate list in configured order, the
committed chain/poll/rewarding scalars). Modelled from the spec for the final
step: `proto.Marshal` followed by the fixed 256-bit hash `hash.Hash256b`
(both external libraries) is modelled as an injective canonical encoding, so
the commitment is represented by the canonical committed record itself. -/
def Genesis.Hash (g : Genesis) : GenesisProto :=
  let initBalanceAddrs := sortStrings (g.account.InitBalanceMap.map Prod.fst)
  let initBalances :=
    initBalanceAddrs.map (fun k => (mapLookup k g.account.InitBalanceMap).getD "")
  { blockchain :=
    { Timestamp := g.blockchain.Timestamp
      BlockGasLimit := g.blockchain.BlockGasLimit
      ActionGasLimit := g.blockchain.ActionGasLimit
      BlockInterval := g.blockchain.BlockInterval
      NumSubEpochs := g.blockchain.NumSubEpochs
      NumDelegates := g.blockchain.NumDelegates
      NumCandidateDelegates := g.blockchain.NumCandidateDelegates
      TimeBasedRotation := g.blockchain.TimeBasedRotation }
    account :=
    { InitBalanceAddrs := initBalanceAddrs
      InitBalances := initBalances }
    poll :=
    { EnableGravityChainVoting := g.poll.EnableGravityChainVoting
      GravityChainStartHeight := g.poll.GravityChainStartHeight
      RegisterContractAddress := g.poll.RegisterContractAddress
      StakingContractAddress := g.poll.StakingContractAddress
      VoteThreshold := g.poll.VoteThreshold
      ScoreThreshold := g.poll.ScoreThreshold
      SelfStakingThreshold := g.poll.SelfStakingThreshold
      Delegates := g.poll.Delegates.map delegateProto }
    rewarding :=
    { InitBalance := g.rewarding.InitBalanceStr
      BlockReward := g.rewarding.BlockRewardStr
      EpochReward := g.rewarding.EpochRewardStr
      NumDelegatesForEpochReward := g.rewarding.NumDelegatesForEpochReward
      FoundationBonus := g.rewarding.FoundationBonusStr
      NumDelegatesForFoundationBonus := g.rewarding.NumDelegatesForFoundationBonus
      FoundationBonusLastEpoch := g.rewarding.FoundationBonusLastEpoch
      ProductivityThreshold := g.rewarding.ProductivityThreshold } }

/-- Go function `defaultInitBalanceMap`. -/
def defaultInitBalanceMap : List (String × String) :=
  [ ("io1uqhmnttmv0pg8prugxxn7d8ex9angrvfjfthxa", "9800000000000000000000000000")
  , ("io1v3gkc49d5vwtdfdka2ekjl3h468egun8e43r7z", "100000000000000000000000000")
  , ("io1vrl48nsdm8jaujccd9cx4ve23cskr0ys6urx92", "100000000000000000000000000")
  , ("io1llupp3n8q5x8usnr5w08j6hc6hn55x64l46rr7", "100000000000000000000000000")
  , ("io1ns7y0pxmklk8ceattty6n7makpw76u770u5avy", "100000000000000000000000000")
  , ("io1xuavja5dwde8pvy4yms06yyncad4yavghjhwra", "100000000000000000000000000")
  , ("io1cdqx6p5rquudxuewflfndpcl0l8t5aezen9slr", "100000000000000000000000000")
  , ("io1hh97f273nhxcq8ajzcpujtt7p9pqyndfmavn9r", "100000000000000000000000000")
  , ("io1yhvu38epz5vmkjaclp45a7t08r27slmcc0zjzh", "100000000000000000000000000")
  , ("io1cl6rl2ev5dfa988qmgzg2x4hfazmp9vn2g66ng", "100000000000000000000000000")
  , ("io1skmqp33qme8knyw0fzgt9takwrc2nvz4sevk5c", "100000000000000000000000000")
  , ("io1fxzh50pa6qc6x5cprgmgw4qrp5vw97zk5pxt3q", "100000000000000000000000000")
  , ("io1jh0ekmccywfkmj7e8qsuzsupnlk3w5337hjjg2", "100000000000000000000000000")
  , ("io1juvx5g063eu4ts832nukp4vgcwk2gnc5cu9ayd", "100000000000000000000000000")
  , ("io19d0p3ah4g8ww9d7kcxfq87yxe7fnr8rpth5shj", "100000000000000000000000000")
  , ("io1ed52svvdun2qv8sf2m0xnynuxfaulv6jlww7ur", "100000000000000000000000000")
  , ("io158hyzrmf4a8xll7gfc8xnwlv70jgp44tzy5nvd", "100000000000000000000000000")
  , ("io19kshh892255x4h5ularvr3q3al2v8cgl80fqrt", "100000000000000000000000000")
  , ("io1ph0u2psnd7muq5xv9623rmxdsxc4uapxhzpg02", "100000000000000000000000000")
  , ("io1znka733xefxjjw2wqddegplwtefun0mfdmz7dw", "100000000000000000000000000")
  , ("io13sj9mzpewn25ymheukte4v39hvjdtrfp00mlyv", "100000000000000000000000000")
  , ("io14gnqxf9dpkn05g337rl7eyt2nxasphf5m6n0rd", "100000000000000000000000000")
  , ("io1l3wc0smczyay8xq747e2hw63mzg3ctp6uf8wsg", "100000000000000000000000000")
  , ("io1q4tdrahguffdu4e9j9aj4f38p2nee0r9vlhx7s", "100000000000000000000000000")
  , ("io1k9y4a9juk45zaqwvjmhtz6yjc68twqds4qcvzv", "100000000000000000000000000")
  , ("io15flratm0nhh5xpxz2lznrrpmnwteyd86hxdtj0", "100000000000000000000000000")
  , ("io1eq4ehs6xx6zj9gcsax7h3qydwlxut9xcfcjras", "100000000000000000000000000")
  , ("io10a298zmzvrt4guq79a9f4x7qedj59y7ery84he", "100000000000000000000000000") ]

/-- Fatal configuration error raised at load time. -/
inductive ConfigError where
  | unknownKey (key : String)
deriving Repr, DecidableEq

/-- Modelled from the spec: one entry of the optional override document
consumed by `New` through the external strict YAML loader
(`go.uber.org/config`, not part of this repository). A recognized entry (a
representative subset of the yaml option names of the Genesis structs)
carries a typed value to be merged field-by-field; `unknown` models an
override key outside the recognized field set. -/
inductive OverrideEntry where
  | timestamp (v : Int)
  | blockGasLimit (v : Nat)
  | pacificHeight (v : Nat)
  | initBalances (m : List (String × String))
  | delegates (ds : List Delegate)
  | unknown (key : String)

/-- Modelled from the spec: field-by-field merge of one recognized override
entry onto a genesis record. -/
def applyOverride (g : Genesis) : OverrideEntry → Genesis
  | .timestamp v => { g with blockchain := { g.blockchain with Timestamp := v } }
  | .blockGasLimit v => { g with blockchain := { g.blockchain with BlockGasLimit := v } }
  | .pacificHeight v => { g with blockchain := { g.blockchain with PacificBlockHeight := v } }
  | .initBalances m => { g with account := { g.account with InitBalanceMap := m } }
  | .delegates ds => { g with poll := { g.poll with Delegates := ds } }
  | .unknown _ => g

/-- The keys of an override document that fall outside the recognized set. -/
def unknownKeys (overrides : List OverrideEntry) : List String :=
  overrides.filterMap fun e =>
    match e with
    | .unknown k => some k
    | _ => none

/-- Go function `New`: starts from `defaultConfig`, populates the override
document rejecting unrecognized keys (the strict YAML populate is external,
modelled from the spec), and — as in the source — substitutes
`defaultInitBalanceMap` when the resulting balance table is empty. -/
def New (overrides : List OverrideEntry) : Except ConfigError Genesis :=
  match unknownKeys overrides with
  | k :: _ => .error (.unknownKey k)
  | [] =>
    let genesis := overrides.foldl applyOverride defaultConfig
    if genesis.account.InitBalanceMap.isEmpty then
      .ok { genesis with account :=
            { genesis.account with InitBalanceMap := defaultInitBalanceMap } }
    else .ok genesis

/-- The process-wide genesis-timestamp cell: package variable `_genesisTs`
with its `sync.Once` guard `_loadGenesisTs`; `once` records whether the `Do`
body has already run. -/
structure GenesisTsState where
  ts : Int
  once : Bool
deriving Repr, DecidableEq

/-- The state at process start: zero timestamp, `Do` not yet executed. -/
def initialGenesisTsState : GenesisTsState := { ts := 0, once := false }

/-- Go function `SetGenesisTimestamp(ts int64)`: runs the assignment at most
once under `_loadGenesisTs.Do`. -/
def SetGenesisTimestamp (ts : Int) (s : GenesisTsState) : GenesisTsState :=
  if s.once then s else { ts := ts, once := true }

/-- Go function `Timestamp()`: reads `_genesisTs`. -/
def Timestamp (s : GenesisTsState) : Int := s.ts

/-- The UTF-8 byte length of a string, summed over its characters; models
Go `len(v)` on a string. -/
def utf8Len (s : String) : Nat :=
  s.data.foldl (fun n c => n + c.utf8Size) 0

/-- The Go byte-slice comparison `v[:3] == "io1"` (evaluated only when
`len(v) >= 3`): the first three bytes equal `io1` exactly when the first
three characters are `i`, `o`, `1`, since those bytes are ASCII. -/
def hasIo1Tag (v : String) : Bool :=
  decide (v.data.take 3 = ['i', 'o', '1'])

/-- The body of the loop in `Account.IsDeployerWhitelisted`, one allowlist
entry per step. The external address codec — iotex-address `FromString` and
`FromHex` and go-ethereum `IsHexAddress` — is passed in as pure parameters
over an arbitrary address type. `none` models the Go panic raised by the
slice expression `v[:3]` when an entry is shorter than 3 bytes. -/
def deployerLoop {α : Type} (fromString fromHex : String → Option α)
    (isHexAddr : String → Bool) (beq : α → α → Bool) (deployer : α) :
    List String → Option Bool
  | [] => some false
  | v :: rest =>
    if utf8Len v < 3 then none
    else if hasIo1Tag v then
      match fromString v with
      | some addr =>
        if beq deployer addr then some true
        else deployerLoop fromString fromHex isHexAddr beq deployer rest
      | none => deployerLoop fromString fromHex isHexAddr beq deployer rest
    else if isHexAddr v then
      match fromHex v with
      | some addr =>
        if beq deployer addr then some true
        else deployerLoop fromString fromHex isHexAddr beq deployer rest
      | none => deployerLoop fromString fromHex isHexAddr beq deployer rest
    else deployerLoop fromString fromHex isHexAddr beq deployer rest

/-- Go method `(a *Account) IsDeployerWhitelisted(deployer) bool`, modelled
over the entry loop above. -/
def Account.IsDeployerWhitelisted {α : Type} (fromString fromHex : String → Option α)
    (isHexAddr : String → Bool) (beq : α → α → Bool) (a : Account) (deployer : α) :
    Option Bool :=
  deployerLoop fromString fromHex isHexAddr beq deployer a.ReplayDeployerWhitelist

/-- Whether one allowlist entry matches the deployer: the entry parses under
the encoding selected by its form (native io1 text when it starts with the
3-byte prefix io1, otherwise hex when it looks like a hex address) to an
address equal to the deployer; an entry unparseable under both encodings
never matches. -/
def deployerEntryMatch {α : Type} (fromString fromHex : String → Option α)
    (isHexAddr : String → Bool) (beq : α → α → Bool) (deployer : α) (v : String) : Bool :=
  if hasIo1Tag v then
    match fromString v with
    | some addr => beq deployer addr
    | none => false
  else if isHexAddr v then
    match fromHex v with
    | some addr => beq deployer addr
    | none => false
  else false

/-- One scanning step of Go `big.Int.SetString(s, 10)`: consume decimal
digits, failing on any non-digit character. -/
def parseDigitsAux : List Char → Nat → Option Nat
  | [], acc => some acc
  | c :: cs, acc =>
    if c.isDigit then parseDigitsAux cs (acc * 10 + (c.toNat - 48)) else none

/-- Nonempty run of decimal digits, as required by `big.Int.SetString` in
base 10 after the optional sign. -/
def parseDigits : List Char → Option Nat
  | [] => none
  | l => parseDigitsAux l 0

/-- Model of Go `new(big.Int).SetString(s, 10)`: an optional leading sign
followed by one or more decimal digits and nothing else; `none` models the
`ok = false` result that every amount accessor turns into a panic. -/
def setStringBase10 (s : String) : Option Int :=
  match s.data with
  | [] => none
  | c :: rest =>
    if c = '+' then (parseDigits rest).map Int.ofNat
    else if c = '-' then (parseDigits rest).map fun n => -Int.ofNat n
    else (parseDigits (c :: rest)).map Int.ofNat

/-- Go method `(d *Delegate) Votes()`: parses VotesStr in base 10, panicking
(modelled `none`) on failure. -/
def Delegate.Votes (d : Delegate) : Option Int :=
  setStringBase10 d.VotesStr

/-- Go method `(r *Rewarding) InitBalance()`. -/
def Rewarding.InitBalance (r : Rewarding) : Option Int :=
  setStringBase10 r.InitBalanceStr

/-- Go method `(r *Rewarding) BlockReward()`. -/
def Rewarding.BlockReward (r : Rewarding) : Option Int :=
  setStringBase10 r.BlockRewardStr

/-- Go method `(r *Rewarding) EpochReward()`. -/
def Rewarding.EpochReward (r : Rewarding) : Option Int :=
  setStringBase10 r.EpochRewardStr

/-- Go method `(r *Rewarding) AleutianEpochReward()`. -/
def Rewarding.AleutianEpochReward (r : Rewarding) : Option Int :=
  setStringBase10 r.AleutianEpochRewardStr

/-- Go method `(r *Rewarding) DardanellesBlockReward()`. -/
def Rewarding.DardanellesBlockReward (r : Rewarding) : Option Int :=
  setStringBase10 r.DardanellesBlockRewardStr

/-- Go method `(r *Rewarding) WakeBlockReward()`. -/
def Rewarding.WakeBlockReward (r : Rewarding) : Option Int :=
  setStringBase10 r.WakeBlockRewardStr

/-- Go method `(r *Rewarding) FoundationBonus()`. -/
def Rewarding.FoundationBonus (r : Rewarding) : Option Int :=
  setStringBase10 r.FoundationBonusStr

/-- The numeric value of a run of decimal digits. -/
def digitsValue (l : List Char) : Nat :=
  l.foldl (fun a c => a * 10 + (c.toNat - 48)) 0

/-- The spec words, stated independently of the scanner above: a valid
base-10 integer string is an optional sign followed by a nonempty run of
decimal digits. -/
def isBase10IntegerString (s : String) : Bool :=
  match s.data with
  | [] => false
  | c :: rest =>
    if c = '+' || c = '-' then !rest.isEmpty && rest.all Char.isDigit
    else (c :: rest).all Char.isDigit

/-- The integer a valid base-10 string denotes, per the spec words. -/
def base10Value (s : String) : Int :=
  match s.data with
  | [] => 0
  | c :: rest =>
    if c = '-' then -Int.ofNat (digitsValue rest)
    else if c = '+' then Int.ofNat (digitsValue rest)
    else Int.ofNat (digitsValue (c :: rest))

/-- Sample delegate whose votes field is not numeric, for the C9 witness. -/
def votesNotANumber : Delegate :=
  { OperatorAddrStr := "", RewardAddrStr := "", VotesStr := "not-a-number" }

theorem isPost_iff (g : Blockchain) (t x : Nat) : g.isPost t x = true ↔ t ≤ x := by
  simp [Blockchain.isPost, ge_iff_le]

theorem isPost_mono (g : Blockchain) (t x y : Nat) (hxy : x ≤ y)
    (hx : g.isPost t x = true) : g.isPost t y = true :=
  (isPost_iff g t y).mpr (le_trans ((isPost_iff g t x).mp hx) hxy)

theorem sortStrings_perm (l : List String) : List.Perm (sortStrings l) l :=
  List.perm_insertionSort _ l

theorem sortStrings_sorted (l : List String) : List.Sorted (· ≤ ·) (sortStrings l) :=
  List.sorted_insertionSort _ l

theorem sortStrings_eq_of_perm {l l' : List String} (h : List.Perm l l') :
    sortStrings l = sortStrings l' :=
  List.eq_of_perm_of_sorted
    ((sortStrings_perm l).trans (h.trans (sortStrings_perm l').symm))
    (sortStrings_sorted l) (sortStrings_sorted l')

theorem mapLookup_isSome_iff_mem (k : String) (l : List (String × String)) :
    (mapLookup k l).isSome = true ↔ k ∈ l.map Prod.fst := by
  induction l with
  | nil => simp [mapLookup]
  | cons p rest ih =>
    by_cases hp : p.1 = k <;> simp [mapLookup, hp, ih]
    exact fun h => absurd h.symm hp

theorem mapLookup_eq_none_of_not_mem {k : String} {l : List (String × String)}
    (h : k ∉ l.map Prod.fst) : mapLookup k l = none := by
  rcases ho : mapLookup k l with _ | v
  · rfl
  · exact absurd ((mapLookup_isSome_iff_mem k l).mp (by simp [ho])) h

theorem perm_mapLookup {l l' : List (String × String)} (hp : l.Perm l') :
    (l.map Prod.fst).Nodup → ∀ k, mapLookup k l = mapLookup k l' := by
  induction hp with
  | nil => exact fun _ _ => rfl
  | cons p hp ih =>
    intro hnd k
    simp only [List.map_cons, List.nodup_cons] at hnd
    by_cases h : p.1 = k <;> simp [mapLookup, h, ih hnd.2 k]
  | swap x y t =>
    intro hnd k
    simp only [List.map_cons, List.nodup_cons, List.mem_cons] at hnd
    by_cases hy : y.1 = k <;> by_cases hx : x.1 = k <;>
      simp [mapLookup, hy, hx]
    exact absurd (Or.inl (hy.trans hx.symm)) hnd.1
  | trans h1 _ ih1 ih2 =>
    intro hnd k
    exact (ih1 hnd k).trans (ih2 ((h1.map Prod.fst).nodup hnd) k)

theorem map_congr_of_map_eq {α β : Type} {f g : α → β} :
    ∀ {l : List α}, l.map f = l.map g → ∀ x ∈ l, f x = g x := by
  intro l
  induction l with
  | nil => intro _ x hx; cases hx
  | cons a t ih =>
    intro h x hx
    simp only [List.map_cons, List.cons.injEq] at h
    rcases List.mem_cons.mp hx with hx' | hx'
    · exact hx' ▸ h.1
    · exact ih h.2 x hx'

theorem option_eq_of_getD_eq {o o' : Option String}
    (hs : o.isSome = true) (hs' : o'.isSome = true)
    (h : o.getD "" = o'.getD "") : o = o' := by
  cases o <;> cases o' <;> simp_all

theorem delegateProto_injective : Function.Injective delegateProto := by
  intro a b h
  cases a; cases b
  simpa [delegateProto, GenesisDelegateProto.mk.injEq, Delegate.mk.injEq] using h

/-- C2: the genesis commitment is independent of the insertion order of the
initial-balance table: two parameter sets whose balance tables hold the same
address-to-amount pairs in any order (with distinct addresses, as in a Go
map) and agree on all other fields have equal commitments. -/
theorem hash_independent_of_balance_order (g g' : Genesis)
    (hperm : List.Perm g.account.InitBalanceMap g'.account.InitBalanceMap)
    (hnd : (g.account.InitBalanceMap.map Prod.fst).Nodup)
    (_hwl : g.account.ReplayDeployerWhitelist = g'.account.ReplayDeployerWhitelist)
    (hbc : g.blockchain = g'.blockchain) (hpoll : g.poll = g'.poll)
    (hrew : g.rewarding = g'.rewarding) (_hstk : g.staking = g'.staking) :
    g.Hash = g'.Hash := by
  have hkeys : sortStrings (g.account.InitBalanceMap.map Prod.fst)
      = sortStrings (g'.account.InitBalanceMap.map Prod.fst) :=
    sortStrings_eq_of_perm (hperm.map Prod.fst)
  have hlook : ∀ k, mapLookup k g.account.InitBalanceMap
      = mapLookup k g'.account.InitBalanceMap :=
    perm_mapLookup hperm hnd
  simp only [Genesis.Hash, hbc, hpoll, hrew, hkeys, hlook]

/-- Witness genesis for C2: the default config with a two-entry balance
table inserted in one order. -/
def permExampleA : Genesis :=
  { Default with account :=
    { InitBalanceMap := [("b", "2"), ("a", "1")]
      ReplayDeployerWhitelist := Default.account.ReplayDeployerWhitelist } }

/-- Witness genesis for C2: the same balance table inserted in the other
order. -/
def permExampleB : Genesis :=
  { Default with account :=
    { InitBalanceMap := [("a", "1"), ("b", "2")]
      ReplayDeployerWhitelist := Default.account.ReplayDeployerWhitelist } }

/-- Witness for C2: permuting a concrete two-entry balance table leaves the
commitment unchanged. -/
theorem hash_balance_order_witness :
    List.Perm permExampleA.account.InitBalanceMap permExampleB.account.InitBalanceMap ∧
    (permExampleA.account.InitBalanceMap.map Prod.fst).Nodup ∧
    permExampleA.Hash = permExampleB.Hash :=
  ⟨by decide, by decide,
    hash_independent_of_balance_order permExampleA permExampleB (by decide) (by decide)
      rfl rfl rfl rfl rfl⟩

/-- C4: the commitment is a function of only the committed founding subset:
changing every fork-activation height (PacificBlockHeight through
WakeBlockHeight and ToBeEnabledBlockHeight), the whole Staking sub-record,
and the ReplayDeployerWhitelist leaves the commitment unchanged. -/
theorem hash_ignores_uncommitted_fields (g : Genesis)
    (n1 n2 n3 n4 n5 n6 n7 n8 n9 n10 n11 n12 n13 n14 n15 n16 n17 n18 n19 n20
      n21 n22 n23 n24 n25 n26 n27 : Nat) (s : Staking) (w : List String) :
    Genesis.Hash
      { g with
        blockchain :=
        { g.blockchain with
          PacificBlockHeight := n1
          AleutianBlockHeight := n2
          BeringBlockHeight := n3
          CookBlockHeight := n4
          DardanellesBlockHeight := n5
          DaytonaBlockHeight := n6
          EasterBlockHeight := n7
          FbkMigrationBlockHeight := n8
          FairbankBlockHeight := n9
          GreenlandBlockHeight := n10
          HawaiiBlockHeight := n11
          IcelandBlockHeight := n12
          JutlandBlockHeight := n13
          KamchatkaBlockHeight := n14
          LordHoweBlockHeight := n15
          MidwayBlockHeight := n16
          NewfoundlandBlockHeight := n17
          OkhotskBlockHeight := n18
          PalauBlockHeight := n19
          QuebecBlockHeight := n20
          RedseaBlockHeight := n21
          SumatraBlockHeight := n22
          TsunamiBlockHeight := n23
          UpernavikBlockHeight := n24
          VanuatuBlockHeight := n25
          WakeBlockHeight := n26
          ToBeEnabledBlockHeight := n27 }
        account := { g.account with ReplayDeployerWhitelist := w }
        staking := s } = Genesis.Hash g := rfl

/-- C5: changing any single committed field changes the commitment: each
committed chain scalar, any entry of the initial-balance table, the delegate
list or its order, each listed committed poll parameter, and each listed
committed rewarding parameter. -/
theorem hash_sensitive_to_committed_fields (g : Genesis) :
    (∀ x, x ≠ g.blockchain.Timestamp →
      Genesis.Hash { g with blockchain := { g.blockchain with Timestamp := x } }
        ≠ Genesis.Hash g) ∧
    (∀ x, x ≠ g.blockchain.BlockGasLimit →
      Genesis.Hash { g with blockchain := { g.blockchain with BlockGasLimit := x } }
        ≠ Genesis.Hash g) ∧
    (∀ x, x ≠ g.blockchain.ActionGasLimit →
      Genesis.Hash { g with blockchain := { g.blockchain with ActionGasLimit := x } }
        ≠ Genesis.Hash g) ∧
    (∀ x, x ≠ g.blockchain.BlockInterval →
      Genesis.Hash { g with blockchain := { g.blockchain with BlockInterval := x } }
        ≠ Genesis.Hash g) ∧
    (∀ x, x ≠ g.blockchain.NumSubEpochs →
      Genesis.Hash { g with blockchain := { g.blockchain with NumSubEpochs := x } }
        ≠ Genesis.Hash g) ∧
    (∀ x, x ≠ g.blockchain.NumDelegates →
      Genesis.Hash { g with blockchain := { g.blockchain with NumDelegates := x } }
        ≠ Genesis.Hash g) ∧
    (∀ x, x ≠ g.blockchain.NumCandidateDelegates →
      Genesis.Hash { g with blockchain := { g.blockchain with NumCandidateDelegates := x } }
        ≠ Genesis.Hash g) ∧
    (∀ x, x ≠ g.blockchain.TimeBasedRotation →
      Genesis.Hash { g with blockchain := { g.blockchain with TimeBasedRotation := x } }
        ≠ Genesis.Hash g) ∧
    (∀ m', (∃ k, mapLookup k m' ≠ mapLookup k g.account.InitBalanceMap) →
      Genesis.Hash { g with account := { g.account with InitBalanceMap := m' } }
        ≠ Genesis.Hash g) ∧
    (∀ ds, ds ≠ g.poll.Delegates →
      Genesis.Hash { g with poll := { g.poll with Delegates := ds } }
        ≠ Genesis.Hash g) ∧
    (∀ x, x ≠ g.poll.EnableGravityChainVoting →
      Genesis.Hash { g with poll := { g.poll with EnableGravityChainVoting := x } }
        ≠ Genesis.Hash g) ∧
    (∀ x, x ≠ g.poll.GravityChainStartHeight →
      Genesis.Hash { g with poll := { g.poll with GravityChainStartHeight := x } }
        ≠ Genesis.Hash g) ∧
    (∀ x, x ≠ g.poll.VoteThreshold →
      Genesis.Hash { g with poll := { g.poll with VoteThreshold := x } }
        ≠ Genesis.Hash g) ∧
    (∀ x, x ≠ g.poll.ScoreThreshold →
      Genesis.Hash { g with poll := { g.poll with ScoreThreshold := x } }
        ≠ Genesis.Hash g) ∧
    (∀ x, x ≠ g.poll.SelfStakingThreshold →
      Genesis.Hash { g with poll := { g.poll with SelfStakingThreshold := x } }
        ≠ Genesis.Hash g) ∧
    (∀ x, x ≠ g.poll.RegisterContractAddress →
      Genesis.Hash { g with poll := { g.poll with RegisterContractAddress := x } }
        ≠ Genesis.Hash g) ∧
    (∀ x, x ≠ g.poll.StakingContractAddress →
      Genesis.Hash { g with poll := { g.poll with StakingContractAddress := x } }
        ≠ Genesis.Hash g) ∧
    (∀ x, x ≠ g.rewarding.InitBalanceStr →
      Genesis.Hash { g with rewarding := { g.rewarding with InitBalanceStr := x } }
        ≠ Genesis.Hash g) ∧
    (∀ x, x ≠ g.rewarding.BlockRewardStr →
      Genesis.Hash { g with rewarding := { g.rewarding with BlockRewardStr := x } }
        ≠ Genesis.Hash g) ∧
    (∀ x, x ≠ g.rewarding.EpochRewardStr →
      Genesis.Hash { g with rewarding := { g.rewarding with EpochRewardStr := x } }
        ≠ Genesis.Hash g) ∧
    (∀ x, x ≠ g.rewarding.NumDelegatesForEpochReward →
      Genesis.Hash { g with rewarding := { g.rewarding with NumDelegatesForEpochReward := x } }
        ≠ Genesis.Hash g) ∧
    (∀ x, x ≠ g.rewarding.NumDelegatesForFoundationBonus →
      Genesis.Hash
          { g with rewarding := { g.rewarding with NumDelegatesForFoundationBonus := x } }
        ≠ Genesis.Hash g) ∧
    (∀ x, x ≠ g.rewarding.ProductivityThreshold →
      Genesis.Hash { g with rewarding := { g.rewarding with ProductivityThreshold := x } }
        ≠ Genesis.Hash g) := by
  refine ⟨?_, ?_, ?_, ?_, ?_, ?_, ?_, ?_, ?_, ?_, ?_, ?_, ?_, ?_, ?_, ?_, ?_,
    ?_, ?_, ?_, ?_, ?_, ?_⟩
  · intro x hx heq
    exact hx (congrArg (fun p => p.blockchain.Timestamp) heq)
  · intro x hx heq
    exact hx (congrArg (fun p => p.blockchain.BlockGasLimit) heq)
  · intro x hx heq
    exact hx (congrArg (fun p => p.blockchain.ActionGasLimit) heq)
  · intro x hx heq
    exact hx (congrArg (fun p => p.blockchain.BlockInterval) heq)
  · intro x hx heq
    exact hx (congrArg (fun p => p.blockchain.NumSubEpochs) heq)
  · intro x hx heq
    exact hx (congrArg (fun p => p.blockchain.NumDelegates) heq)
  · intro x hx heq
    exact hx (congrArg (fun p => p.blockchain.NumCandidateDelegates) heq)
  · intro x hx heq
    exact hx (congrArg (fun p => p.blockchain.TimeBasedRotation) heq)
  · rintro m' ⟨k, hk⟩ heq
    apply hk
    have ha := congrArg (fun p => p.account.InitBalanceAddrs) heq
    have hb := congrArg (fun p => p.account.InitBalances) heq
    change sortStrings (m'.map Prod.fst)
      = sortStrings (g.account.InitBalanceMap.map Prod.fst) at ha
    change (sortStrings (m'.map Prod.fst)).map (fun a => (mapLookup a m').getD "")
      = (sortStrings (g.account.InitBalanceMap.map Prod.fst)).map
          (fun a => (mapLookup a g.account.InitBalanceMap).getD "") at hb
    rw [ha] at hb
    by_cases hmem : k ∈ g.account.InitBalanceMap.map Prod.fst
    · have hmem' : k ∈ m'.map Prod.fst := by
        have hs : k ∈ sortStrings (g.account.InitBalanceMap.map Prod.fst) :=
          ((sortStrings_perm _).mem_iff).mpr hmem
        rw [← ha] at hs
        exact ((sortStrings_perm _).mem_iff).mp hs
      have hpt := map_congr_of_map_eq hb k (((sortStrings_perm _).mem_iff).mpr hmem)
      exact option_eq_of_getD_eq ((mapLookup_isSome_iff_mem k m').mpr hmem')
        ((mapLookup_isSome_iff_mem k _).mpr hmem) hpt
    · have hmem' : k ∉ m'.map Prod.fst := by
        intro hc
        apply hmem
        have hs : k ∈ sortStrings (m'.map Prod.fst) :=
          ((sortStrings_perm _).mem_iff).mpr hc
        rw [ha] at hs
        exact ((sortStrings_perm _).mem_iff).mp hs
      rw [mapLookup_eq_none_of_not_mem hmem', mapLookup_eq_none_of_not_mem hmem]
  · intro ds hne heq
    apply hne
    have hd := congrArg (fun p => p.poll.Delegates) heq
    change ds.map delegateProto = g.poll.Delegates.map delegateProto at hd
    exact List.map_injective_iff.mpr delegateProto_injective hd
  · intro x hx heq
    exact hx (congrArg (fun p => p.poll.EnableGravityChainVoting) heq)
  · intro x hx heq
    exact hx (congrArg (fun p => p.poll.GravityChainStartHeight) heq)
  · intro x hx heq
    exact hx (congrArg (fun p => p.poll.VoteThreshold) heq)
  · intro x hx heq
    exact hx (congrArg (fun p => p.poll.ScoreThreshold) heq)
  · intro x hx heq
    exact hx (congrArg (fun p => p.poll.SelfStakingThreshold) heq)
  · intro x hx heq
    exact hx (congrArg (fun p => p.poll.RegisterContractAddress) heq)
  · intro x hx heq
    exact hx (congrArg (fun p => p.poll.StakingContractAddress) heq)
  · intro x hx heq
    exact hx (congrArg (fun p => p.rewarding.InitBalance) heq)
  · intro x hx heq
    exact hx (congrArg (fun p => p.rewarding.BlockReward) heq)
  · intro x hx heq
    exact hx (congrArg (fun p => p.rewarding.EpochReward) heq)
  · intro x hx heq
    exact hx (congrArg (fun p => p.rewarding.NumDelegatesForEpochReward) heq)
  · intro x hx heq
    exact hx (congrArg (fun p => p.rewarding.NumDelegatesForFoundationBonus) heq)
  · intro x hx heq
    exact hx (congrArg (fun p => p.rewarding.ProductivityThreshold) heq)

/-- Witness for C5: changing the committed genesis timestamp of the default
configuration changes the commitment. -/
theorem hash_sensitivity_witness :
    (0 : Int) ≠ Default.blockchain.Timestamp ∧
    Genesis.Hash { Default with blockchain := { Default.blockchain with Timestamp := 0 } }
      ≠ Genesis.Hash Default :=
  ⟨by decide, (hash_sensitive_to_committed_fields Default).1 0 (by decide)⟩

/-- C1: for every named fork predicate (IsPacific, IsAleutian, ..., IsWake,
IsToBeEnabled) and every height h, the predicate returns true exactly when
h is at least the configured activation height (inclusive lower bound), and
each predicate is monotonic non-decreasing in the height: for h1 < h2,
activity at h1 implies activity at h2. -/
theorem fork_predicates_inclusive_and_monotonic (g : Blockchain) (h h1 h2 : Nat)
    (hlt : h1 < h2) :
    (g.IsPacific h = true ↔ g.PacificBlockHeight ≤ h) ∧
    (g.IsPacific h1 = true → g.IsPacific h2 = true) ∧
    (g.IsAleutian h = true ↔ g.AleutianBlockHeight ≤ h) ∧
    (g.IsAleutian h1 = true → g.IsAleutian h2 = true) ∧
    (g.IsBering h = true ↔ g.BeringBlockHeight ≤ h) ∧
    (g.IsBering h1 = true → g.IsBering h2 = true) ∧
    (g.IsCook h = true ↔ g.CookBlockHeight ≤ h) ∧
    (g.IsCook h1 = true → g.IsCook h2 = true) ∧
    (g.IsDardanelles h = true ↔ g.DardanellesBlockHeight ≤ h) ∧
    (g.IsDardanelles h1 = true → g.IsDardanelles h2 = true) ∧
    (g.IsDaytona h = true ↔ g.DaytonaBlockHeight ≤ h) ∧
    (g.IsDaytona h1 = true → g.IsDaytona h2 = true) ∧
    (g.IsEaster h = true ↔ g.EasterBlockHeight ≤ h) ∧
    (g.IsEaster h1 = true → g.IsEaster h2 = true) ∧
    (g.IsFairbank h = true ↔ g.FairbankBlockHeight ≤ h) ∧
    (g.IsFairbank h1 = true → g.IsFairbank h2 = true) ∧
    (g.IsFbkMigration h = true ↔ g.FbkMigrationBlockHeight ≤ h) ∧
    (g.IsFbkMigration h1 = true → g.IsFbkMigration h2 = true) ∧
    (g.IsGreenland h = true ↔ g.GreenlandBlockHeight ≤ h) ∧
    (g.IsGreenland h1 = true → g.IsGreenland h2 = true) ∧
    (g.IsHawaii h = true ↔ g.HawaiiBlockHeight ≤ h) ∧
    (g.IsHawaii h1 = true → g.IsHawaii h2 = true) ∧
    (g.IsIceland h = true ↔ g.IcelandBlockHeight ≤ h) ∧
    (g.IsIceland h1 = true → g.IsIceland h2 = true) ∧
    (g.IsJutland h = true ↔ g.JutlandBlockHeight ≤ h) ∧
    (g.IsJutland h1 = true → g.IsJutland h2 = true) ∧
    (g.IsKamchatka h = true ↔ g.KamchatkaBlockHeight ≤ h) ∧
    (g.IsKamchatka h1 = true → g.IsKamchatka h2 = true) ∧
    (g.IsLordHowe h = true ↔ g.LordHoweBlockHeight ≤ h) ∧
    (g.IsLordHowe h1 = true → g.IsLordHowe h2 = true) ∧
    (g.IsMidway h = true ↔ g.MidwayBlockHeight ≤ h) ∧
    (g.IsMidway h1 = true → g.IsMidway h2 = true) ∧
    (g.IsNewfoundland h = true ↔ g.NewfoundlandBlockHeight ≤ h) ∧
    (g.IsNewfoundland h1 = true → g.IsNewfoundland h2 = true) ∧
    (g.IsOkhotsk h = true ↔ g.OkhotskBlockHeight ≤ h) ∧
    (g.IsOkhotsk h1 = true → g.IsOkhotsk h2 = true) ∧
    (g.IsPalau h = true ↔ g.PalauBlockHeight ≤ h) ∧
    (g.IsPalau h1 = true → g.IsPalau h2 = true) ∧
    (g.IsQuebec h = true ↔ g.QuebecBlockHeight ≤ h) ∧
    (g.IsQuebec h1 = true → g.IsQuebec h2 = true) ∧
    (g.IsRedsea h = true ↔ g.RedseaBlockHeight ≤ h) ∧
    (g.IsRedsea h1 = true → g.IsRedsea h2 = true) ∧
    (g.IsSumatra h = true ↔ g.SumatraBlockHeight ≤ h) ∧
    (g.IsSumatra h1 = true → g.IsSumatra h2 = true) ∧
    (g.IsTsunami h = true ↔ g.TsunamiBlockHeight ≤ h) ∧
    (g.IsTsunami h1 = true → g.IsTsunami h2 = true) ∧
    (g.IsUpernavik h = true ↔ g.UpernavikBlockHeight ≤ h) ∧
    (g.IsUpernavik h1 = true → g.IsUpernavik h2 = true) ∧
    (g.IsVanuatu h = true ↔ g.VanuatuBlockHeight ≤ h) ∧
    (g.IsVanuatu h1 = true → g.IsVanuatu h2 = true) ∧
    (g.IsWake h = true ↔ g.WakeBlockHeight ≤ h) ∧
    (g.IsWake h1 = true → g.IsWake h2 = true) ∧
    (g.IsToBeEnabled h = true ↔ g.ToBeEnabledBlockHeight ≤ h) ∧
    (g.IsToBeEnabled h1 = true → g.IsToBeEnabled h2 = true) := by
  have mono : ∀ t, g.isPost t h1 = true → g.isPost t h2 = true :=
    fun t => isPost_mono g t h1 h2 (le_of_lt hlt)
  repeat' apply And.intro
  all_goals first
  | exact isPost_iff g _ h
  | exact mono _

/-- Witness for C1 at the default configuration: the Pacific fork is active at
its activation height 432001, and by monotonicity still active at 500000. -/
theorem fork_predicates_witness :
    432001 < 500000 ∧ Default.blockchain.IsPacific 500000 = true :=
  ⟨by decide,
    (fork_predicates_inclusive_and_monotonic Default.blockchain 432001 432001 500000
      (by decide)).2.1 (by decide)⟩

/-- C3: with base gas limit 20000000, Tsunami gas limit 50000000 from the
Tsunami height, and Wake gas limit 25000000 from the (later) Wake height,
BlockGasLimitByHeight returns the tier with the greatest activation height
not exceeding the queried height. -/
theorem blockGasLimitByHeight_tiers (g : Blockchain) (height : Nat)
    (hbase : g.BlockGasLimit = 20000000)
    (htsu : g.TsunamiBlockGasLimit = 50000000)
    (hwake : g.WakeBlockGasLimit = 25000000)
    (hord : g.TsunamiBlockHeight < g.WakeBlockHeight) :
    (height < g.TsunamiBlockHeight → g.BlockGasLimitByHeight height = 20000000) ∧
    (g.TsunamiBlockHeight ≤ height → height < g.WakeBlockHeight →
      g.BlockGasLimitByHeight height = 50000000) ∧
    (g.WakeBlockHeight ≤ height → g.BlockGasLimitByHeight height = 25000000) := by
  refine ⟨fun hb => ?_, fun ht hw => ?_, fun hw => ?_⟩
  · have h1 : ¬ (g.WakeBlockHeight ≤ height) := by omega
    have h2 : ¬ (g.TsunamiBlockHeight ≤ height) := by omega
    simp [Blockchain.BlockGasLimitByHeight, Blockchain.isPost, ge_iff_le, h1, h2, hbase]
  · have h1 : ¬ (g.WakeBlockHeight ≤ height) := by omega
    simp [Blockchain.BlockGasLimitByHeight, Blockchain.isPost, ge_iff_le, h1, ht, htsu]
  · simp [Blockchain.BlockGasLimitByHeight, Blockchain.isPost, ge_iff_le, hw, hwake]

/-- Witness for C3 at the default configuration: at the Tsunami activation
height itself the gas limit is the raised 50000000. -/
theorem blockGasLimitByHeight_witness :
    Default.blockchain.TsunamiBlockHeight < Default.blockchain.WakeBlockHeight ∧
    Default.blockchain.BlockGasLimitByHeight 29275561 = 50000000 :=
  ⟨by decide,
    (blockGasLimitByHeight_tiers Default.blockchain 29275561 rfl rfl rfl
      (by decide)).2.1 (by decide) (by decide)⟩

/-- C10: in the default configuration ToBeEnabledBlockHeight is the maximal
uint64 value 2^64 - 1, so IsToBeEnabled is false at every representable
height below 2^64 - 1 and true exactly at 2^64 - 1. -/
theorem isToBeEnabled_default_sentinel (h : Nat) (hlt : h < 2 ^ 64 - 1) :
    Default.blockchain.ToBeEnabledBlockHeight = 2 ^ 64 - 1 ∧
    Default.blockchain.IsToBeEnabled h = false ∧
    Default.blockchain.IsToBeEnabled (2 ^ 64 - 1) = true := by
  refine ⟨by decide, ?_, by decide⟩
  have hsent : Default.blockchain.ToBeEnabledBlockHeight = 2 ^ 64 - 1 := by decide
  simp only [Blockchain.IsToBeEnabled, Blockchain.isPost, hsent, ge_iff_le,
    decide_eq_false_iff_not, not_le]
  exact hlt

/-- Witness for C10: at height 0 the staged gate is off. -/
theorem isToBeEnabled_default_witness :
    0 < 2 ^ 64 - 1 ∧ Default.blockchain.IsToBeEnabled 0 = false :=
  ⟨by decide, (isToBeEnabled_default_sentinel 0 (by decide)).2.1⟩

/-- C6: the loader rejects unknown override keys rather than ignoring them:
an override document containing any key outside the recognized field set
makes New return a ConfigError, never a Genesis with the key dropped. -/
theorem new_rejects_unknown_keys (overrides : List OverrideEntry) (k : String)
    (hk : OverrideEntry.unknown k ∈ overrides) :
    ∃ k', New overrides = Except.error (ConfigError.unknownKey k') := by
  have hne : unknownKeys overrides ≠ [] := by
    intro hnil
    have hm : k ∈ unknownKeys overrides :=
      List.mem_filterMap.mpr ⟨OverrideEntry.unknown k, hk, rfl⟩
    rw [hnil] at hm
    cases hm
  cases h : unknownKeys overrides with
  | nil => exact absurd h hne
  | cons k' t => exact ⟨k', by simp [New, h]⟩

/-- Witness for C6: a document with one recognized and one unknown key is
rejected. -/
theorem new_rejects_unknown_keys_witness :
    OverrideEntry.unknown "notAField" ∈
      [OverrideEntry.timestamp 1, OverrideEntry.unknown "notAField"] ∧
    ∃ k', New [OverrideEntry.timestamp 1, OverrideEntry.unknown "notAField"]
      = Except.error (ConfigError.unknownKey k') :=
  ⟨by simp, new_rejects_unknown_keys _ "notAField" (by simp)⟩

/-- C8: the process-wide genesis timestamp is set-once and idempotent: from
a fresh state, the first SetGenesisTimestamp call wins; any sequence of
later calls with any values leaves the stored value unchanged, and every
subsequent Timestamp read returns the first value. -/
theorem setGenesisTimestamp_set_once (s : GenesisTsState) (t1 : Int)
    (hfresh : s.once = false) (later : List Int) :
    Timestamp (later.foldl (fun st t => SetGenesisTimestamp t st)
      (SetGenesisTimestamp t1 s)) = t1 ∧
    ∀ t2, Timestamp (SetGenesisTimestamp t2 (SetGenesisTimestamp t1 s)) = t1 := by
  have hset : SetGenesisTimestamp t1 s = { ts := t1, once := true } := by
    simp [SetGenesisTimestamp, hfresh]
  have hfix : ∀ (st : GenesisTsState), st.once = true →
      ∀ t, SetGenesisTimestamp t st = st := by
    intro st h t
    simp [SetGenesisTimestamp, h]
  have hfold : ∀ (l : List Int) (st : GenesisTsState), st.once = true →
      l.foldl (fun st t => SetGenesisTimestamp t st) st = st := by
    intro l
    induction l with
    | nil => intro st _; rfl
    | cons a tl ih =>
      intro st h
      simp only [List.foldl_cons, hfix st h a]
      exact ih st h
  constructor
  · rw [hset, hfold later _ rfl]
    rfl
  · intro t2
    rw [hset, hfix _ rfl t2]
    rfl


/-- Witness for C8: setting 5 then 7 from the fresh state reads back 5. -/
theorem setGenesisTimestamp_witness :
    initialGenesisTsState.once = false ∧
    Timestamp (SetGenesisTimestamp 7 (SetGenesisTimestamp 5 initialGenesisTsState)) = 5 :=
  ⟨rfl, (setGenesisTimestamp_set_once initialGenesisTsState 5 rfl []).2 7⟩

theorem parseDigitsAux_all_digits (l : List Char) :
    ∀ acc, l.all Char.isDigit = true →
      parseDigitsAux l acc = some (l.foldl (fun a c => a * 10 + (c.toNat - 48)) acc) := by
  induction l with
  | nil => intro acc _; rfl
  | cons c cs ih =>
    intro acc h
    simp only [List.all_cons, Bool.and_eq_true] at h
    simp [parseDigitsAux, h.1, ih _ h.2, List.foldl_cons]

theorem parseDigitsAux_not_all (l : List Char) :
    ∀ acc, l.all Char.isDigit = false → parseDigitsAux l acc = none := by
  induction l with
  | nil => intro acc h; simp at h
  | cons c cs ih =>
    intro acc h
    by_cases hc : c.isDigit
    · simp only [List.all_cons, hc, Bool.true_and] at h
      simp [parseDigitsAux, hc, ih _ h]
    · simp [parseDigitsAux, hc]

theorem parseDigits_none_iff (l : List Char) :
    parseDigits l = none ↔ (l.isEmpty = true ∨ l.all Char.isDigit = false) := by
  cases l with
  | nil => simp [parseDigits]
  | cons c cs =>
    have hred : parseDigits (c :: cs) = parseDigitsAux (c :: cs) 0 := rfl
    rw [hred]
    simp only [List.isEmpty_cons, Bool.false_eq_true, false_or]
    constructor
    · intro h
      by_contra hall
      rw [Bool.not_eq_false] at hall
      rw [parseDigitsAux_all_digits _ 0 hall] at h
      cases h
    · intro h
      exact parseDigitsAux_not_all _ 0 h

theorem parseDigits_all_digits (l : List Char) (hne : l ≠ [])
    (hall : l.all Char.isDigit = true) :
    parseDigits l = some (digitsValue l) := by
  cases l with
  | nil => exact absurd rfl hne
  | cons c cs => exact parseDigitsAux_all_digits _ 0 hall

theorem setStringBase10_spec (s : String) :
    (setStringBase10 s = none ↔ isBase10IntegerString s = false) ∧
    (isBase10IntegerString s = true → setStringBase10 s = some (base10Value s)) := by
  cases hs : s.data with
  | nil => simp [setStringBase10, isBase10IntegerString, hs, parseDigits]
  | cons c rest =>
    by_cases hp : c = '+'
    · constructor
      · rw [show setStringBase10 s = (parseDigits rest).map Int.ofNat by
            simp [setStringBase10, hs, hp]]
        rw [show isBase10IntegerString s = (!rest.isEmpty && rest.all Char.isDigit) by
            simp [isBase10IntegerString, hs, hp]]
        rw [Option.map_eq_none', parseDigits_none_iff]
        cases hre : rest.isEmpty <;> cases hra : rest.all Char.isDigit <;> simp [hre, hra]
      · intro hv
        rw [show isBase10IntegerString s = (!rest.isEmpty && rest.all Char.isDigit) by
            simp [isBase10IntegerString, hs, hp]] at hv
        simp only [Bool.and_eq_true, Bool.not_eq_true'] at hv
        have hne : rest ≠ [] := by
          intro hnil
          rw [hnil] at hv
          simp at hv
        rw [show setStringBase10 s = (parseDigits rest).map Int.ofNat by
            simp [setStringBase10, hs, hp]]
        rw [show base10Value s = Int.ofNat (digitsValue rest) by
            simp [base10Value, hs, hp]]
        rw [parseDigits_all_digits rest hne hv.2]
        rfl
    · by_cases hm : c = '-'
      · constructor
        · rw [show setStringBase10 s = (parseDigits rest).map (fun n => -Int.ofNat n) by
              simp [setStringBase10, hs, hp, hm]]
          rw [show isBase10IntegerString s = (!rest.isEmpty && rest.all Char.isDigit) by
              simp [isBase10IntegerString, hs, hp, hm]]
          rw [Option.map_eq_none', parseDigits_none_iff]
          cases hre : rest.isEmpty <;> cases hra : rest.all Char.isDigit <;> simp [hre, hra]
        · intro hv
          rw [show isBase10IntegerString s = (!rest.isEmpty && rest.all Char.isDigit) by
              simp [isBase10IntegerString, hs, hp, hm]] at hv
          simp only [Bool.and_eq_true, Bool.not_eq_true'] at hv
          have hne : rest ≠ [] := by
            intro hnil
            rw [hnil] at hv
            simp at hv
          rw [show setStringBase10 s = (parseDigits rest).map (fun n => -Int.ofNat n) by
              simp [setStringBase10, hs, hp, hm]]
          rw [show base10Value s = -Int.ofNat (digitsValue rest) by
              simp [base10Value, hs, hp, hm]]
          rw [parseDigits_all_digits rest hne hv.2]
          rfl
      · constructor
        · rw [show setStringBase10 s = (parseDigits (c :: rest)).map Int.ofNat by
              simp [setStringBase10, hs, hp, hm]]
          rw [show isBase10IntegerString s = ((c :: rest).all Char.isDigit) by
              simp [isBase10IntegerString, hs, hp, hm]]
          rw [Option.map_eq_none', parseDigits_none_iff]
          simp
        · intro hv
          rw [show isBase10IntegerString s = ((c :: rest).all Char.isDigit) by
              simp [isBase10IntegerString, hs, hp, hm]] at hv
          rw [show setStringBase10 s = (parseDigits (c :: rest)).map Int.ofNat by
              simp [setStringBase10, hs, hp, hm]]
          rw [show base10Value s = Int.ofNat (digitsValue (c :: rest)) by
              simp [base10Value, hs, hp, hm]]
          rw [parseDigits_all_digits (c :: rest) (by simp) hv]
          rfl

/-- C9: every derived-amount accessor (Delegate.Votes, Rewarding.InitBalance,
BlockReward, EpochReward, AleutianEpochReward, DardanellesBlockReward,
WakeBlockReward, FoundationBonus) parses its field as a base-10 integer
string: it fails fatally (the Go panic, modelled `none`) exactly on strings
that are not valid base-10 integer strings, and on every valid string it
returns the denoted integer. -/
theorem amount_accessors_parse_base10 (d : Delegate) (r : Rewarding) :
    ((d.Votes = none ↔ isBase10IntegerString d.VotesStr = false) ∧
      (isBase10IntegerString d.VotesStr = true →
        d.Votes = some (base10Value d.VotesStr))) ∧
    ((r.InitBalance = none ↔ isBase10IntegerString r.InitBalanceStr = false) ∧
      (isBase10IntegerString r.InitBalanceStr = true →
        r.InitBalance = some (base10Value r.InitBalanceStr))) ∧
    ((r.BlockReward = none ↔ isBase10IntegerString r.BlockRewardStr = false) ∧
      (isBase10IntegerString r.BlockRewardStr = true →
        r.BlockReward = some (base10Value r.BlockRewardStr))) ∧
    ((r.EpochReward = none ↔ isBase10IntegerString r.EpochRewardStr = false) ∧
      (isBase10IntegerString r.EpochRewardStr = true →
        r.EpochReward = some (base10Value r.EpochRewardStr))) ∧
    ((r.AleutianEpochReward = none ↔
        isBase10IntegerString r.AleutianEpochRewardStr = false) ∧
      (isBase10IntegerString r.AleutianEpochRewardStr = true →
        r.AleutianEpochReward = some (base10Value r.AleutianEpochRewardStr))) ∧
    ((r.DardanellesBlockReward = none ↔
        isBase10IntegerString r.DardanellesBlockRewardStr = false) ∧
      (isBase10IntegerString r.DardanellesBlockRewardStr = true →
        r.DardanellesBlockReward = some (base10Value r.DardanellesBlockRewardStr))) ∧
    ((r.WakeBlockReward = none ↔ isBase10IntegerString r.WakeBlockRewardStr = false) ∧
      (isBase10IntegerString r.WakeBlockRewardStr = true →
        r.WakeBlockReward = some (base10Value r.WakeBlockRewardStr))) ∧
    ((r.FoundationBonus = none ↔ isBase10IntegerString r.FoundationBonusStr = false) ∧
      (isBase10IntegerString r.FoundationBonusStr = true →
        r.FoundationBonus = some (base10Value r.FoundationBonusStr))) :=
  ⟨setStringBase10_spec _, setStringBase10_spec _, setStringBase10_spec _,
    setStringBase10_spec _, setStringBase10_spec _, setStringBase10_spec _,
    setStringBase10_spec _, setStringBase10_spec _⟩

/-- Witness for C9: Votes on the string not-a-number fails fatally, and the
default block reward string parses to its integer. -/
theorem amount_accessors_witness :
    isBase10IntegerString "not-a-number" = false ∧
    Delegate.Votes votesNotANumber = none ∧
    isBase10IntegerString Default.rewarding.BlockRewardStr = true ∧
    Rewarding.BlockReward Default.rewarding = some 16000000000000000000 := by
  have h := amount_accessors_parse_base10 votesNotANumber Default.rewarding
  refine ⟨by decide, h.1.1.mpr (by decide), by decide, ?_⟩
  rw [h.2.2.1.2 (by decide)]
  decide

/-- C7 (amended): for every allowlist whose entries are all at least 3 bytes
long, IsDeployerWhitelisted treats every entry unparseable under both
encodings as a non-match and always returns a boolean: some entry matches
the deployer exactly when it parses to an equal address. -/
theorem deployer_whitelist_total_and_matches {α : Type}
    (fromString fromHex : String → Option α) (isHexAddr : String → Bool)
    (beq : α → α → Bool) (a : Account) (deployer : α)
    (hlen : ∀ v ∈ a.ReplayDeployerWhitelist, 3 ≤ utf8Len v) :
    Account.IsDeployerWhitelisted fromString fromHex isHexAddr beq a deployer
      = some (a.ReplayDeployerWhitelist.any
          (deployerEntryMatch fromString fromHex isHexAddr beq deployer)) ∧
    (Account.IsDeployerWhitelisted fromString fromHex isHexAddr beq a deployer
        = some true ↔
      ∃ v ∈ a.ReplayDeployerWhitelist,
        deployerEntryMatch fromString fromHex isHexAddr beq deployer v = true) := by
  have main : ∀ (l : List String), (∀ v ∈ l, 3 ≤ utf8Len v) →
      deployerLoop fromString fromHex isHexAddr beq deployer l
        = some (l.any (deployerEntryMatch fromString fromHex isHexAddr beq deployer)) := by
    intro l
    induction l with
    | nil => intro _; rfl
    | cons v rest ih =>
      intro hl
      have hv : 3 ≤ utf8Len v := hl v (List.mem_cons_self v rest)
      have hrest : ∀ u ∈ rest, 3 ≤ utf8Len u :=
        fun u hu => hl u (List.mem_cons_of_mem v hu)
      have hnot : ¬ (utf8Len v < 3) := by omega
      by_cases hio : hasIo1Tag v
      · cases hfs : fromString v with
        | none =>
          simp [deployerLoop, hnot, hio, hfs, deployerEntryMatch, ih hrest,
            List.any_cons]
        | some addr =>
          by_cases hb : beq deployer addr
          · simp [deployerLoop, hnot, hio, hfs, hb, deployerEntryMatch, List.any_cons]
          · simp [deployerLoop, hnot, hio, hfs, hb, deployerEntryMatch, ih hrest,
              List.any_cons]
      · by_cases hhex : isHexAddr v
        · cases hfh : fromHex v with
          | none =>
            simp [deployerLoop, hnot, hio, hhex, hfh, deployerEntryMatch, ih hrest,
              List.any_cons]
          | some addr =>
            by_cases hb : beq deployer addr
            · simp [deployerLoop, hnot, hio, hhex, hfh, hb, deployerEntryMatch,
                List.any_cons]
            · simp [deployerLoop, hnot, hio, hhex, hfh, hb, deployerEntryMatch,
                ih hrest, List.any_cons]
        · simp [deployerLoop, hnot, hio, hhex, deployerEntryMatch, ih hrest,
            List.any_cons]
  have h1 := main a.ReplayDeployerWhitelist hlen
  refine ⟨h1, ?_⟩
  unfold Account.IsDeployerWhitelisted
  rw [h1]
  simp [List.any_eq_true]

/-- Counterexample to C7 as stated: with the configured allowlist entry x,
which is shorter than 3 bytes and parses under neither encoding, the lookup
does not return a boolean — the Go expression v[:3] panics, modelled by the
`none` result — so the predicate does not treat every unparseable entry as a
non-match without aborting. -/
theorem deployer_whitelist_abort_counterexample :
    Account.IsDeployerWhitelisted (fun _ => (none : Option Nat)) (fun _ => none)
      (fun _ => false) (fun x y => x == y)
      { InitBalanceMap := [], ReplayDeployerWhitelist := ["x"] } 0 = none := by
  decide

/-- Witness for the amended C7 on the default allowlist: its single entry is
3 bytes or longer, and with a codec that parses nothing the lookup returns
the boolean false rather than aborting. -/
theorem deployer_whitelist_witness :
    (∀ v ∈ Default.account.ReplayDeployerWhitelist, 3 ≤ utf8Len v) ∧
    Account.IsDeployerWhitelisted (fun _ => (none : Option Nat)) (fun _ => none)
      (fun _ => false) (fun x y => x == y) Default.account 0 = some false :=
  ⟨by decide,
    (deployer_whitelist_total_and_matches (fun _ => (none : Option Nat)) (fun _ => none)
      (fun _ => false) (fun x y => x == y) Default.account 0 (by decide)).1.trans
      (by decide)⟩

end IotexGenesis
